import Mathlib

/-
Verification of the ritsuko chat-bot core: the command parser and dispatcher
(src/commands.py), the token-bucket rate limiter (src/rate_limiter.py), the
message-intake / authorization / response pipeline and the resilient
connection-supervisor loop (src/bot.py).

Python floats are modelled as exact rationals (ℚ) and wall-clock readings of
time.time() are explicit ℚ parameters.  Python exceptions are modelled with an
explicit error type and an exception-passing state monad.
-/

namespace Ritsuko

/-! ## String helpers

Python's `in` substring test and `str.split()` (whitespace splitting with
empty pieces discarded) modelled over `List Char` / `String`. -/

/-- matchesAt pat l: the pattern `pat` occurs at the head of `l`. -/
def matchesAt : List Char → List Char → Bool
  | [], _ => true
  | _ :: _, [] => false
  | p :: ps, c :: cs => p == c && matchesAt ps cs

/-- hasSubList pat l: the pattern `pat` occurs somewhere inside `l`
(Python `pat in l`). -/
def hasSubList (pat : List Char) : List Char → Bool
  | [] => matchesAt pat []
  | c :: cs => matchesAt pat (c :: cs) || hasSubList pat cs

/-- strContains s pat: Python `pat in s` on strings. -/
def strContains (s pat : String) : Bool :=
  hasSubList pat.data s.data

/-- strStarts s pat: Python `s.startswith(pat)`. -/
def strStarts (s pat : String) : Bool :=
  matchesAt pat.data s.data

/-- strEnds s pat: Python `s.endswith(pat)`. -/
def strEnds (s pat : String) : Bool :=
  matchesAt pat.data.reverse s.data.reverse

/-- strLower s: Python `s.lower()` (ASCII case folding). -/
def strLower (s : String) : String :=
  String.mk (s.data.map Char.toLower)

/-- wordsAux cur cs: accumulator-based whitespace tokenizer; `cur` holds the
current word reversed. -/
def wordsAux : List Char → List Char → List String
  | cur, [] => if cur.isEmpty then [] else [String.mk cur.reverse]
  | cur, c :: cs =>
    if c.isWhitespace then
      if cur.isEmpty then wordsAux [] cs
      else String.mk cur.reverse :: wordsAux [] cs
    else wordsAux (c :: cur) cs

/-- splitWords content: Python `content.strip().split()` — split on runs of
whitespace, discarding empty pieces (stripping is subsumed). -/
def splitWords (content : String) : List String :=
  wordsAux [] content.data

/-! ## commands.py — parse_command and the command dispatch -/

/-- parse_command (src/commands.py lines 22-66).  The Python function takes
the Zulip message dict; only `message["type"]` and `message.get("content","")`
are consulted, passed here as `msg_type` and `content`.  Returns the
lower-cased command token and the remaining words. -/
def parse_command (msg_type : String) (content : String) :
    Option String × List String :=
  let words := splitWords content
  match words with
  | [] => (none, [])
  | w0 :: restWords =>
    if msg_type = "stream" then
      -- in stream messages the first word is the bot mention, command second
      match restWords with
      | [] => (none, [])
      | w1 :: args => (some (strLower w1), args)
    else
      -- private message: skip a leading @**...** / @_**...** mention
      if (strStarts w0 "@**" || strStarts w0 "@_**") && strEnds w0 "**" then
        match restWords with
        | [] => (none, [])
        | w1 :: args => (some (strLower w1), args)
      else
        (some (strLower w0), restWords)

/-- handle_help (src/commands.py lines 69-89): fixed help text. -/
def handle_help : String :=
  "markdown\n**Available Commands:**\n- `ai <prompt>` - Interact with an LLM\n- ~~`mcp <prompt>` - Interact with an LLM and MCP servers~~ **TODO**\n- `nautobot <node>` - Get the nautobot info for the given node\n- `status` - Get bot status information\n- `clusters` | `clusters <cluster>` - Lists the cluster name and kubernetes\n  cluster name - If a cluster is selected will bring data from that\n- `node <node_name>` - Get information about a node\n- ~~`jira <prompt>` - Interact with Jira~~ #TODO\n- ~~`confluence <prompt>` - Interact with Confluence~~ **TODO**\n- `help` - Show this help message\n- `version` - Show bot version and debug information\n\nUsage:\n```markdown\n@**Ritsuko** <command> [opts]\n```\n"

/-- handle_clusters (src/commands.py lines 257-287): fixed cluster listing. -/
def handle_clusters : String :=
  "## Clusters - [VMS Global Uptime](https://graphs.eencloud.com/d/jFpmPakGk/vms-global-uptime)\nc001  - aus1p1\nc002  - test\nc006  - nrt1p1\nc007  - hnd1p1\nc011  - hkg1p1\nc012  - aus1p3\nc013  - fra1p1\nc014  - aus1p4\nc015  - aus1p5\nc016  - aus1p7\nc017  - aus1p8\nc018  - aus1p9\nc019  - fra1p2\nc020  - aus1p10\nc021  - aus1p11\nc022  - lon1p1\nc023  - aus1p12 (test)\nc024  - aus1p13\nc025  - yyz1p1\nc026  - aus1p14\nc027  - aus1p15\nc028  - aus1p16\nc029  - ruh1p1\nc030  - aus1p17\nc031  - aus2p1\n"

/-- handle_version (src/commands.py lines 313-316): version banner with an
environment override. -/
def handle_version (ritsuko_version : Option String) : String :=
  "Ritsuko " ++ ritsuko_version.getD "v1.0.5 running in Alejandro\x27s laptop"

/-- handle_unknown (src/commands.py lines 319-321). -/
def handle_unknown (command : String) : String :=
  "Unknown command: `" ++ command ++ "`. Type `help` for available commands."

/-- The impure handler collaborators (ai, node, nautobot, status) reach
external services; they are opaque parameters of the dispatch, exactly as
the spec treats them (pure functions from arguments to text). -/
structure Handlers where
  ai : List String → String
  node : List String → String
  nautobot : List String → String
  status : String

/-- execute_command (src/commands.py lines 324-362): parse, then dispatch on
the exact lower-cased command token; unmatched tokens fall through to
handle_unknown, a missing command yields the fixed no-command message. -/
def execute_command (h : Handlers) (ritsuko_version : Option String)
    (msg_type content : String) : String :=
  match parse_command msg_type content with
  | (none, _) => "No command specified. Type `help` for available commands."
  | (some command, args) =>
    if command = "help" then handle_help
    else if command = "ai" then h.ai args
    else if command = "mcp" then "MCP command is not yet implemented. Coming soon!"
    else if command = "node" then h.node args
    else if command = "nautobot" then h.nautobot args
    else if command = "cluster" then handle_clusters
    else if command = "clusters" then handle_clusters
    else if command = "status" then h.status
    else if command = "version" then handle_version ritsuko_version
    else handle_unknown command

/-! ## rate_limiter.py — token bucket

Floats are exact rationals; every `time.time()` reading is an explicit ℚ
argument.  The polling loop of `acquire` observes the clock twice per
iteration (the elapsed check at line 104 and the refill inside the lock at
line 115); those readings are supplied as a finite schedule of pairs, an
empty schedule meaning the observation horizon ends while the caller is
still waiting. -/

structure RateLimiter where
  requests_per_minute : ℕ
  burst_size : ℕ
  tokens : ℚ
  max_tokens : ℚ
  refill_rate : ℚ
  last_refill : ℚ
  queue : List ℚ
  queue_max_size : ℕ
  total_requests : ℕ
  total_queued : ℕ
  total_rejected : ℕ

/-- RateLimiter.__init__ (src/rate_limiter.py lines 23-55), `now` being the
`time.time()` reading stored into `last_refill`. -/
def RateLimiter.init (requests_per_minute burst_size : ℕ) (now : ℚ) :
    RateLimiter where
  requests_per_minute := requests_per_minute
  burst_size := burst_size
  tokens := burst_size
  max_tokens := burst_size
  refill_rate := (requests_per_minute : ℚ) / 60
  last_refill := now
  queue := []
  queue_max_size := 100
  total_requests := 0
  total_queued := 0
  total_rejected := 0

/-- _refill_tokens (src/rate_limiter.py lines 57-64). -/
def refill_tokens (rl : RateLimiter) (now : ℚ) : RateLimiter :=
  let elapsed := now - rl.last_refill
  let tokens_to_add := elapsed * rl.refill_rate
  { rl with tokens := min rl.max_tokens (rl.tokens + tokens_to_add),
            last_refill := now }

/-- The polling wait of acquire (src/rate_limiter.py lines 103-119): each
schedule entry is one iteration's pair of clock readings (elapsed check,
refill). -/
def acquire_loop (rl : RateLimiter) (start_time timeout : ℚ) :
    List (ℚ × ℚ) → Bool × RateLimiter
  | [] => (false, rl)
  | (tCheck, tRefill) :: sched =>
    if timeout ≤ tCheck - start_time then (false, rl)
    else
      let rl1 := refill_tokens rl tRefill
      if 1 ≤ rl1.tokens then
        (true, { rl1 with tokens := rl1.tokens - 1,
                          total_requests := rl1.total_requests + 1 })
      else acquire_loop rl1 start_time timeout sched

/-- acquire (src/rate_limiter.py lines 66-119).  `now` is the single instant
modelling both the `start_time` reading (line 78) and the first refill
reading inside the lock (line 90). -/
def acquire (rl : RateLimiter) (timeout now : ℚ) (sched : List (ℚ × ℚ)) :
    Bool × RateLimiter :=
  if rl.queue_max_size ≤ rl.queue.length then
    (false, { rl with total_rejected := rl.total_rejected + 1 })
  else
    let rl1 := refill_tokens rl now
    if 1 ≤ rl1.tokens then
      (true, { rl1 with tokens := rl1.tokens - 1,
                        total_requests := rl1.total_requests + 1 })
    else
      let rl2 := { rl1 with total_queued := rl1.total_queued + 1 }
      acquire_loop rl2 now timeout sched

/-- try_acquire (src/rate_limiter.py lines 121-136). -/
def try_acquire (rl : RateLimiter) (now : ℚ) : Bool × RateLimiter :=
  let rl1 := refill_tokens rl now
  if 1 ≤ rl1.tokens then
    (true, { rl1 with tokens := rl1.tokens - 1,
                      total_requests := rl1.total_requests + 1 })
  else (false, rl1)

/-- The metrics dictionary returned by get_metrics (rounding of
`available_tokens` to two decimals for display is not modelled). -/
structure Metrics where
  available_tokens : ℚ
  total_requests : ℕ
  total_queued : ℕ
  total_rejected : ℕ
  queue_size : ℕ
  requests_per_minute : ℕ
  burst_size : ℕ

/-- get_metrics (src/rate_limiter.py lines 138-160): refills, then reports. -/
def get_metrics (rl : RateLimiter) (now : ℚ) : Metrics × RateLimiter :=
  let rl1 := refill_tokens rl now
  (⟨rl1.tokens, rl1.total_requests, rl1.total_queued, rl1.total_rejected,
    rl1.queue.length, rl1.requests_per_minute, rl1.burst_size⟩, rl1)

/-- reset_metrics (src/rate_limiter.py lines 162-168). -/
def reset_metrics (rl : RateLimiter) : RateLimiter :=
  { rl with total_requests := 0, total_queued := 0, total_rejected := 0 }

/-- One externally invokable rate-limiter operation, with its clock
readings. -/
inductive RLOp where
  | tryAcq (now : ℚ)
  | acq (timeout now : ℚ) (sched : List (ℚ × ℚ))
  | metrics (now : ℚ)
  | reset

/-- The clock readings an operation consumes, in order. -/
def opTimes : RLOp → List ℚ
  | .tryAcq now => [now]
  | .acq _ now sched => now :: sched.flatMap (fun p => [p.1, p.2])
  | .metrics now => [now]
  | .reset => []

/-- State effect of one operation (boolean / metrics results discarded). -/
def applyOp (rl : RateLimiter) : RLOp → RateLimiter
  | .tryAcq now => (try_acquire rl now).2
  | .acq timeout now sched => (acquire rl timeout now sched).2
  | .metrics now => (get_metrics rl now).2
  | .reset => reset_metrics rl

/-- Run a sequence of operations from a starting state. -/
def runOps (rl : RateLimiter) : List RLOp → RateLimiter
  | [] => rl
  | op :: ops => runOps (applyOp rl op) ops

/-- Repeated try_acquire at a fixed instant: list of results plus final
state. -/
def try_acquireN (rl : RateLimiter) (now : ℚ) : ℕ → List Bool × RateLimiter
  | 0 => ([], rl)
  | n + 1 =>
    let r1 := try_acquire rl now
    let rn := try_acquireN r1.2 now n
    (r1.1 :: rn.1, rn.2)

/-! ## bot.py — message pipeline

Python exceptions (the `Exception`-derived ones that `except` clauses in
handle_message can see) are modelled by `Err`; each constructor carries the
`str(e)` rendering used in user-facing messages.  Effects are modelled by
`Eff`, an exception-passing state function over a `Trace` recording every
send_message call and every entry into the command parse/dispatch block. -/

inductive Err where
  | keyError (s : String)
  | valueError (s : String)
  | timeoutError (s : String)
  | connectionError (s : String)
  | generic (s : String)

/-- A Zulip message dict; absent keys are `none` (subscripting an absent key
raises KeyError, `.get` substitutes a default). -/
structure Recipient where
  email : Option String

/-- The `display_recipient` value: a stream name (string) for stream
messages, a participant list for private ones. -/
inductive DispRecip where
  | streamName (s : String)
  | users (rs : List Recipient)

structure Message where
  sender_email : Option String
  msg_type : Option String
  content : Option String
  mentioned_user_ids : Option (List Nat)
  display_recipient : Option DispRecip
  subject : Option String

/-- BOT_PROFILE / ZULIP_EMAIL: the bot's own identity, loaded at startup. -/
structure BotProfile where
  email : String
  user_id : Nat

/-- The addressing of an outbound send_message dict. -/
inductive SendTo where
  | emails (l : List (Option String))
  | raw (d : DispRecip)

structure OutMsg where
  msg_type : String
  to' : SendTo
  subject : Option String
  content : String

/-- Observable behavior of one handle_message run: messages handed to
send_message, and how many times the command parse/dispatch block
(src/bot.py lines 250-259) was entered. -/
structure Trace where
  sent : List OutMsg
  execCalls : ℕ

/-- Exception-passing state function: the Trace survives a raised error. -/
def Eff (α : Type) : Type := Trace → Except Err α × Trace

def ePure {α : Type} (a : α) : Eff α := fun tr => (.ok a, tr)

def eThrow {α : Type} (e : Err) : Eff α := fun tr => (.error e, tr)

def eBind {α β : Type} (x : Eff α) (f : α → Eff β) : Eff β := fun tr =>
  match x tr with
  | (.ok a, tr1) => f a tr1
  | (.error e, tr1) => (.error e, tr1)

/-- A Python `try/except` catching every Exception. -/
def eCatch {α : Type} (x : Eff α) (h : Err → Eff α) : Eff α := fun tr =>
  match x tr with
  | (.ok a, tr1) => (.ok a, tr1)
  | (.error e, tr1) => h e tr1

/-- Subscripting a dict key: `message[name]`, raising KeyError with the
Python `str(e)` rendering when the key is absent. -/
def getItem {α : Type} (name : String) (x : Option α) : Eff α :=
  match x with
  | some a => ePure a
  | none => eThrow (.keyError ("\x27" ++ name ++ "\x27"))

/-- bot_mentioned (src/bot.py lines 197-199): structured mention by user id,
or either textual marker in the raw content. -/
def bot_mentioned (bot : BotProfile) (content : String)
    (mentioned_user_ids : List Nat) : Bool :=
  decide (bot.user_id ∈ mentioned_user_ids) ||
    strContains content "@**Ritsuko**" || strContains content "@_**Ritsuko**"

/-- The intake decision of handle_message (src/bot.py lines 182-240),
extracted as the pure classifier the spec calls should_respond:
`non_bot_count` is the number of participants whose email differs from the
bot's (computed at lines 217-218 for private messages; unused otherwise). -/
def should_respond (bot : BotProfile) (sender_email msg_type content : String)
    (mentioned_user_ids : List Nat) (non_bot_count : ℕ) : Bool :=
  if sender_email = bot.email then false
  else if msg_type = "stream" then bot_mentioned bot content mentioned_user_ids
  else if msg_type = "private" then
    if non_bot_count = 1 then true
    else bot_mentioned bot content mentioned_user_ids
  else false

/-- The list comprehension of src/bot.py line 217:
`[r for r in display_recipient if r["email"] != ZULIP_EMAIL]`.  Iterating a
string raises (string items have no subscripting), an absent email key
raises KeyError. -/
def non_bot_users (botEmail : String) : DispRecip → Except Err (List Recipient)
  | .streamName _ => .error (.generic "string indices must be integers")
  | .users rs => go rs
where
  go : List Recipient → Except Err (List Recipient)
    | [] => .ok []
    | r :: rs =>
      match r.email with
      | none => .error (.keyError "\x27email\x27")
      | some e =>
        match go rs with
        | .ok l => .ok (if e ≠ botEmail then r :: l else l)
        | .error err => .error err

/-- The list comprehension of src/bot.py line 282:
`[r["email"] for r in message["display_recipient"] if r["email"] != ZULIP_EMAIL]`. -/
def recipient_emails (botEmail : String) :
    DispRecip → Except Err (List (Option String))
  | .streamName _ => .error (.generic "string indices must be integers")
  | .users rs => go rs
where
  go : List Recipient → Except Err (List (Option String))
    | [] => .ok []
    | r :: rs =>
      match r.email with
      | none => .error (.keyError "\x27email\x27")
      | some e =>
        match go rs with
        | .ok l => .ok (if e ≠ botEmail then some e :: l else l)
        | .error err => .error err

/-- The recovery-path comprehension of src/bot.py line 303:
`[r.get("email") for r in message.get("display_recipient", []) if r.get("email") != ZULIP_EMAIL]`
(`.get` never raises KeyError; iterating a string still raises). -/
def recipient_emails_get (botEmail : String) :
    DispRecip → Except Err (List (Option String))
  | .streamName _ => .error (.generic "str object has no attribute get")
  | .users rs =>
    .ok ((rs.filter (fun r => r.email ≠ some botEmail)).map
      (fun r => r.email))

/-- send_message (src/bot.py lines 162-172): records the outbound message,
then reports success iff the transport returned result == "success";
transport exceptions are swallowed into a False return.  `sendApi` is the
opaque transport collaborator (`client.send_message`), yielding the
`result.get("result")` field or raising. -/
def send_message (sendApi : OutMsg → Except Err (Option String))
    (m : OutMsg) : Eff Bool := fun tr =>
  let tr1 : Trace := { tr with sent := tr.sent ++ [m] }
  match sendApi m with
  | .ok r => (.ok (decide (r = some "success")), tr1)
  | .error _ => (.ok false, tr1)

/-- The command parse/dispatch block of handle_message (src/bot.py lines
250-259): `parse_command` plus the dispatch through handle_ai or
execute_command, whose handler collaborators are external; modelled as one
opaque behavior `cmdBeh`, its invocation counted in the trace. -/
def run_command (cmdBeh : Message → Except Err String) (m : Message) :
    Eff String := fun tr =>
  (cmdBeh m, { tr with execCalls := tr.execCalls + 1 })

/-- The error-to-reply mapping of src/bot.py lines 261-275. -/
def errorResponse : Err → String
  | .keyError s =>
    "I encountered an error processing your request. Missing required field: "
      ++ s ++ "\n\nPlease try again or contact support if this persists."
  | .valueError s =>
    "I encountered an error with the command format: " ++ s ++
      "\n\nPlease check your command syntax and try again. Type `help` for available commands."
  | .timeoutError _ =>
    "Your request timed out. This usually means the external service is slow or unavailable.\n\nPlease try again in a few moments."
  | .connectionError _ =>
    "I couldn\x27t connect to an external service required to process your request.\n\nPlease try again later. If this persists, contact your administrator."
  | .generic s =>
    "An unexpected error occurred: " ++ s ++
      "\n\nPlease try again or contact your administrator if this persists."

/-- Lift an Except value into Eff. -/
def eOf {α : Type} (x : Except Err α) : Eff α :=
  match x with
  | .ok a => ePure a
  | .error e => eThrow e

/-- handle_message lines 242-293: logging subscripts (line 243), the
authorization gate (lines 246-275) and the response send (lines 278-293). -/
def handle_message_rest (bot : BotProfile) (authorized_users : List String)
    (sendApi : OutMsg → Except Err (Option String))
    (cmdBeh : Message → Except Err String) (message : Message) : Eff Unit :=
  -- line 243: logging.info interpolates message["sender_email"] and
  -- message["content"]; both subscripts can raise KeyError
  eBind (getItem "sender_email" message.sender_email) fun sender =>
  eBind (getItem "content" message.content) fun _ =>
  eBind
    (if sender ∈ authorized_users then
      eCatch (run_command cmdBeh message) (fun e => ePure (errorResponse e))
    else
      ePure "I am not authorized to talk to you") fun response =>
  eCatch
    (eBind (getItem "type" message.msg_type) fun t =>
     if t = "private" then
       eBind (getItem "display_recipient" message.display_recipient) fun dr =>
       eBind (eOf (recipient_emails bot.email dr)) fun to_list =>
       eBind (send_message sendApi
         { msg_type := "private", to' := .emails to_list, subject := none,
           content := response }) fun _ => ePure ()
     else if t = "stream" then
       eBind (getItem "display_recipient" message.display_recipient) fun dr =>
       eBind (getItem "subject" message.subject) fun subj =>
       eBind (send_message sendApi
         { msg_type := "stream", to' := .raw dr, subject := some subj,
           content := response }) fun _ => ePure ()
     else ePure ())
    (fun _ => ePure ())

/-- handle_message lines 182-240 followed by handle_message_rest: echo
suppression, mention detection and the conversation-shape decision, with the
early returns of the Python code. -/
def handle_message_body (bot : BotProfile) (authorized_users : List String)
    (sendApi : OutMsg → Except Err (Option String))
    (cmdBeh : Message → Except Err String) (message : Message) : Eff Unit :=
  eBind (getItem "sender_email" message.sender_email) fun sender =>
  if sender = bot.email then ePure ()
  else
    let mentioned := message.mentioned_user_ids.getD []
    let msg_type := message.msg_type.getD "unknown"
    let content := message.content.getD ""
    let mentionedFlag := bot_mentioned bot content mentioned
    let rest := handle_message_rest bot authorized_users sendApi cmdBeh message
    if msg_type = "stream" then
      if mentionedFlag then rest else ePure ()
    else if msg_type = "private" then
      let dr := message.display_recipient.getD (.users [])
      eBind (eOf (non_bot_users bot.email dr)) fun nbu =>
      if nbu.length = 1 then rest
      else if mentionedFlag then rest
      else ePure ()
    else ePure ()

/-- The final recovery block of handle_message (src/bot.py lines 295-314):
best-effort error notification, any secondary failure swallowed. -/
def handle_message_recover (bot : BotProfile)
    (sendApi : OutMsg → Except Err (Option String)) (message : Message) :
    Eff Unit :=
  let error_response :=
    "I encountered a critical error processing your message. Please try again or contact your administrator."
  eCatch
    (if message.msg_type = some "private" then
      eBind (eOf (recipient_emails_get bot.email
        (message.display_recipient.getD (.users [])))) fun to_list =>
      eBind (send_message sendApi
        { msg_type := "private", to' := .emails to_list, subject := none,
          content := error_response }) fun _ => ePure ()
    else if message.msg_type = some "stream" then
      eBind (send_message sendApi
        { msg_type := "stream",
          to' := .raw (message.display_recipient.getD (.streamName "")),
          subject := some (message.subject.getD "Error"),
          content := error_response }) fun _ => ePure ()
    else ePure ())
    (fun _ => ePure ())

/-- handle_message (src/bot.py lines 174-314): the whole pipeline wrapped in
the outermost catch-all. -/
def handle_message (bot : BotProfile) (authorized_users : List String)
    (sendApi : OutMsg → Except Err (Option String))
    (cmdBeh : Message → Except Err String) (message : Message) : Eff Unit :=
  eCatch (handle_message_body bot authorized_users sendApi cmdBeh message)
    (fun _ => handle_message_recover bot sendApi message)

/-! ## bot.py — the resilient message loop of main (lines 369-424)

Each list element is the way one iteration's blocking
`client.call_on_each_message` call ended (the loop body only terminates via
an exception).  The result is `some code` when the process exits with that
code, `none` while the loop is still running at the end of the observed
trace.  Reconnection attempts inside the handlers never re-raise (their
exceptions are caught and logged), so they do not affect the state. -/

inductive LoopEvent where
  | interrupt
  | connError
  | otherError

def max_consecutive_failures : ℕ := 3

/-- The while-loop of main: `failure_count` enters each iteration, but line
377 (`failure_count = 0` at the top of the try block) overwrites it before
the blocking call, exactly as the source does. -/
def messageLoop : ℕ → List LoopEvent → Option ℕ
  | _, [] => none
  | _fc, e :: rest =>
    -- line 377: failure_count = 0, executed at the start of every iteration
    let fc := 0
    match e with
    | .interrupt => some 0
    | .connError =>
      let fc := fc + 1
      if max_consecutive_failures ≤ fc then some 1 else messageLoop fc rest
    | .otherError =>
      let fc := fc + 1
      if max_consecutive_failures ≤ fc then some 1 else messageLoop fc rest

/-- The running state invariant of the token bucket: tokens within
[0, burst_size] (max_tokens is the cached cast of burst_size) and a
non-negative refill rate. -/
def Inv (rl : RateLimiter) : Prop :=
  0 ≤ rl.tokens ∧ rl.tokens ≤ rl.max_tokens ∧
    rl.max_tokens = (rl.burst_size : ℚ) ∧ 0 ≤ rl.refill_rate

/-- A rate limiter whose admission queue is at the bound, for the C5
witness. -/
def fullQueueRL : RateLimiter :=
  { RateLimiter.init 50 10 0 with queue := List.replicate 100 0 }

/-- A sample operation trace with non-decreasing clock readings, for the C8
witness. -/
def sampleOps : List RLOp :=
  [RLOp.tryAcq 1, RLOp.metrics 2, RLOp.acq 30 3 [(3, 4)], RLOp.reset,
   RLOp.tryAcq 6]

/-! ## Theorems -/

/-- Any Eff Unit catch whose handler always returns normally returns
normally itself. -/
theorem eCatch_ok_of_handler (x : Eff Unit) (h : Err → Eff Unit)
    (hh : ∀ e tr, (h e tr).1 = Except.ok ()) (tr : Trace) :
    (eCatch x h tr).1 = Except.ok () := by
  unfold eCatch
  rcases hx : x tr with ⟨a, tr1⟩
  cases a with
  | ok u => cases u; rfl
  | error e => exact hh e tr1

/-- The final recovery block of handle_message always returns normally:
its only fallible part is wrapped in a swallow-everything catch. -/
theorem handle_message_recover_ok (bot : BotProfile)
    (sendApi : OutMsg → Except Err (Option String)) (message : Message)
    (tr : Trace) :
    (handle_message_recover bot sendApi message tr).1 = Except.ok () := by
  unfold handle_message_recover
  exact eCatch_ok_of_handler _ _ (fun e tr1 => rfl) tr

/-- C7: parse_command maps the four specified inputs to the specified
command/argument pairs: stream "@bot help me please" to ("help", ["me",
"please"]); private "ping test 123" to ("ping", ["test", "123"]); private
"@**Bot** status" to ("status", []); empty content to (none, []). -/
theorem C7_parse_command_examples :
    parse_command "stream" "@bot help me please" = (some "help", ["me", "please"]) ∧
    parse_command "private" "ping test 123" = (some "ping", ["test", "123"]) ∧
    parse_command "private" "@**Bot** status" = (some "status", []) ∧
    parse_command "private" "" = (none, []) :=
  ⟨by decide, by decide, by decide, by decide⟩

/-- C2 counterexample: dispatching the private message "echo hello world"
does not produce the reply "hello world" — there is no echo command, so the
text falls through to handle_unknown. -/
theorem C2_echo_counterexample :
    execute_command ⟨fun _ => "", fun _ => "", fun _ => "", ""⟩ none
      "private" "echo hello world" ≠ "hello world" := by decide

/-- C2 (amended): for any handler collaborators and version setting, the
private message "echo hello world" yields the unknown-command reply naming
the token echo. -/
theorem C2_echo_unknown_command (h : Handlers) (v : Option String) :
    execute_command h v "private" "echo hello world" =
      "Unknown command: `echo`. Type `help` for available commands." := by
  have hp : parse_command "private" "echo hello world" =
      (some "echo", ["hello", "world"]) := by decide
  unfold execute_command
  rw [hp]
  simp only [String.reduceEq, reduceIte]
  decide

/-- C1: the supervisor loop of main never terminates with a non-zero exit
from consecutive transport errors: line 377 resets failure_count to 0 at
the top of every iteration, before the blocking receive call, so the
counter is 1 after every failure and the max_consecutive_failures exit is
unreachable.  In particular three consecutive connection errors leave the
loop still running. -/
theorem C1_failure_ceiling_dead :
    messageLoop 0 [LoopEvent.connError, LoopEvent.connError, LoopEvent.connError]
        = none ∧
    ∀ (fc : ℕ) (events : List LoopEvent),
      messageLoop fc events = none ∨ messageLoop fc events = some 0 := by
  refine ⟨rfl, ?_⟩
  intro fc events
  induction events generalizing fc with
  | nil => left; rfl
  | cons e rest ih =>
    cases e with
    | interrupt => right; rfl
    | connError => simpa [messageLoop, max_consecutive_failures] using ih 1
    | otherError => simpa [messageLoop, max_consecutive_failures] using ih 1

/-- C3: the intake decision: false when the sender is the bot itself; for
stream messages it equals the mention predicate; for private messages with
exactly one non-bot participant it is true regardless of mention; with two
or more it equals the mention predicate; any other message type is
ignored. -/
theorem C3_should_respond_cases (bot : BotProfile)
    (sender msg_type content : String) (mids : List Nat) (cnt : ℕ) :
    (sender = bot.email →
      should_respond bot sender msg_type content mids cnt = false) ∧
    (sender ≠ bot.email →
      ((msg_type = "stream" →
        should_respond bot sender msg_type content mids cnt =
          bot_mentioned bot content mids) ∧
       (msg_type = "private" → cnt = 1 →
        should_respond bot sender msg_type content mids cnt = true) ∧
       (msg_type = "private" → 2 ≤ cnt →
        should_respond bot sender msg_type content mids cnt =
          bot_mentioned bot content mids) ∧
       (msg_type ≠ "stream" → msg_type ≠ "private" →
        should_respond bot sender msg_type content mids cnt = false))) := by
  unfold should_respond
  constructor
  · intro h; simp [h]
  · intro h
    refine ⟨?_, ?_, ?_, ?_⟩
    · intro ht; simp [h, ht]
    · intro ht hc; simp [h, ht, hc]
    · intro ht hc
      have hc1 : cnt ≠ 1 := by omega
      simp [h, ht, hc1]
    · intro h1 h2; simp [h, h1, h2]

/-- C3 witness: a stream message from a non-bot sender, where the decision
equals the mention predicate (here: true via the textual marker). -/
theorem C3_witness :
    (("user@example.com" : String) ≠ "ritsuko@example.com") ∧
    should_respond ⟨"ritsuko@example.com", 7⟩ "user@example.com" "stream"
        "@**Ritsuko** hello" [] 0 =
      bot_mentioned ⟨"ritsuko@example.com", 7⟩ "@**Ritsuko** hello" [] :=
  ⟨by decide,
   ((C3_should_respond_cases ⟨"ritsuko@example.com", 7⟩ "user@example.com"
      "stream" "@**Ritsuko** hello" [] 0).2 (by decide)).1 rfl⟩

/-- C9: handle_message is total — for every message (malformed ones
included), every behavior of the command handlers and every behavior of the
send operation, it returns normally; no exception reaches the receive
loop. -/
theorem C9_handle_message_total (bot : BotProfile) (auth : List String)
    (sendApi : OutMsg → Except Err (Option String))
    (cmdBeh : Message → Except Err String) (message : Message) (tr : Trace) :
    (handle_message bot auth sendApi cmdBeh message tr).1 = Except.ok () := by
  unfold handle_message
  exact eCatch_ok_of_handler _ _
    (fun e tr1 => handle_message_recover_ok bot sendApi message tr1) tr

/-- C5: acquire called with the admission queue at its bound rejects
immediately: result false, the rejected counter incremented by one, every
other field (tokens, timestamps, other counters, the queue itself)
untouched, and the polling schedule never consulted. -/
theorem C5_acquire_queue_full (rl : RateLimiter) (timeout now : ℚ)
    (sched : List (ℚ × ℚ)) (h : rl.queue_max_size ≤ rl.queue.length) :
    acquire rl timeout now sched =
      (false, { rl with total_rejected := rl.total_rejected + 1 }) := by
  unfold acquire
  rw [if_pos h]

/-- C5 witness: the concrete full-queue state is rejected immediately. -/
theorem C5_witness :
    (fullQueueRL.queue_max_size ≤ fullQueueRL.queue.length) ∧
    acquire fullQueueRL 30 1 [] =
      (false, { fullQueueRL with total_rejected := fullQueueRL.total_rejected + 1 }) :=
  ⟨by decide, C5_acquire_queue_full fullQueueRL 30 1 [] (by decide)⟩

/-- When every participant record has an email key, the line-217
comprehension succeeds and returns the non-bot participants. -/
theorem non_bot_users_go_ok (b : String) (rs : List Recipient)
    (h : ∀ r ∈ rs, (r.email).isSome) :
    non_bot_users.go b rs = .ok (rs.filter (fun r => r.email ≠ some b)) := by
  induction rs with
  | nil => rfl
  | cons r rs ih =>
    have hr : (r.email).isSome := h r (List.mem_cons_self r rs)
    rcases he : r.email with _ | e
    · rw [he] at hr; cases hr
    · have ih1 := ih (fun r hrr => h r (List.mem_cons_of_mem _ hrr))
      simp only [non_bot_users.go, he, ih1, List.filter_cons]
      by_cases hb : e = b
      · simp [hb, he]
      · simp [hb, he]

/-- When every participant record has an email key, the line-282
comprehension succeeds and returns the non-bot participant emails. -/
theorem recipient_emails_go_ok (b : String) (rs : List Recipient)
    (h : ∀ r ∈ rs, (r.email).isSome) :
    recipient_emails.go b rs =
      .ok ((rs.filter (fun r => r.email ≠ some b)).map (fun r => r.email)) := by
  induction rs with
  | nil => rfl
  | cons r rs ih =>
    have hr : (r.email).isSome := h r (List.mem_cons_self r rs)
    rcases he : r.email with _ | e
    · rw [he] at hr; cases hr
    · have ih1 := ih (fun r hrr => h r (List.mem_cons_of_mem _ hrr))
      simp only [recipient_emails.go, he, ih1, List.filter_cons]
      by_cases hb : e = b
      · simp [hb, he]
      · simp [hb, he]

/-- Running send_message: always returns normally and appends exactly the
given message to the trace. -/
theorem send_message_eq (sendApi : OutMsg → Except Err (Option String))
    (m : OutMsg) (tr : Trace) :
    send_message sendApi m tr =
      (Except.ok (match sendApi m with
        | .ok r => decide (r = some "success")
        | .error _ => false), { tr with sent := tr.sent ++ [m] }) := by
  unfold send_message
  cases sendApi m <;> rfl

/-- C6: an unauthorized sender in a private conversation with exactly one
non-bot participant gets exactly one reply, whose text is the fixed denial
phrase, and the command parse/dispatch block is never entered. -/
theorem C6_unauthorized_denial (bot : BotProfile) (auth : List String)
    (sendApi : OutMsg → Except Err (Option String))
    (cmdBeh : Message → Except Err String) (s c : String)
    (mids : Option (List Nat)) (subj : Option String) (rs : List Recipient)
    (h1 : s ≠ bot.email) (h2 : s ∉ auth)
    (h3 : ∀ r ∈ rs, (r.email).isSome)
    (h4 : (rs.filter (fun r => r.email ≠ some bot.email)).length = 1) :
    (handle_message bot auth sendApi cmdBeh
        ⟨some s, some "private", some c, mids, some (.users rs), subj⟩
        ⟨[], 0⟩).2.execCalls = 0 ∧
    ((handle_message bot auth sendApi cmdBeh
        ⟨some s, some "private", some c, mids, some (.users rs), subj⟩
        ⟨[], 0⟩).2.sent.map (fun m => m.content)) =
      ["I am not authorized to talk to you"] := by
  have hnb := non_bot_users_go_ok bot.email rs h3
  have hre := recipient_emails_go_ok bot.email rs h3
  have h4b : (rs.filter (fun r => !decide (r.email = some bot.email))).length = 1 := by
    simpa using h4
  constructor <;>
    simp [handle_message, handle_message_body, handle_message_rest,
      eCatch, eBind, ePure, eThrow, eOf, getItem, send_message_eq,
      run_command, non_bot_users, recipient_emails, hnb, hre, h1, h2, h4b]

/-- C6 witness: a concrete unauthorized 1:1 private message. -/
theorem C6_witness :
    (("evil@example.com" : String) ≠ "ritsuko@example.com") ∧
    (handle_message ⟨"ritsuko@example.com", 7⟩ ["good@example.com"]
        (fun _ => .ok (some "success")) (fun _ => .ok "")
        ⟨some "evil@example.com", some "private", some "hi", none,
          some (.users [⟨some "evil@example.com"⟩]), none⟩
        ⟨[], 0⟩).2.execCalls = 0 ∧
    ((handle_message ⟨"ritsuko@example.com", 7⟩ ["good@example.com"]
        (fun _ => .ok (some "success")) (fun _ => .ok "")
        ⟨some "evil@example.com", some "private", some "hi", none,
          some (.users [⟨some "evil@example.com"⟩]), none⟩
        ⟨[], 0⟩).2.sent.map (fun m => m.content)) =
      ["I am not authorized to talk to you"] :=
  ⟨by decide,
   (C6_unauthorized_denial ⟨"ritsuko@example.com", 7⟩ ["good@example.com"]
      (fun _ => .ok (some "success")) (fun _ => .ok "") "evil@example.com"
      "hi" none none [⟨some "evil@example.com"⟩]
      (by decide) (by decide) (by decide) (by decide)).1,
   (C6_unauthorized_denial ⟨"ritsuko@example.com", 7⟩ ["good@example.com"]
      (fun _ => .ok (some "success")) (fun _ => .ok "") "evil@example.com"
      "hi" none none [⟨some "evil@example.com"⟩]
      (by decide) (by decide) (by decide) (by decide)).2⟩

/-- Refilling at the stored last-refill instant is a no-op (no time has
elapsed and the tokens are within the cap). -/
theorem refill_tokens_self (rl : RateLimiter) (t : ℚ) (ht : rl.last_refill = t)
    (hmx : rl.tokens ≤ rl.max_tokens) : refill_tokens rl t = rl := by
  cases rl with
  | mk rpm bs tk mx rr lr q qm t1 t2 t3 =>
    simp only [refill_tokens] at *
    simp only [RateLimiter.mk.injEq, and_true, true_and]
    subst ht
    simp [min_eq_right hmx]

/-- try_acquire with no elapsed time and at least one token: consume it. -/
theorem try_acquire_succ (rl : RateLimiter) (t : ℚ) (ht : rl.last_refill = t)
    (hmx : rl.tokens ≤ rl.max_tokens) (h1 : 1 ≤ rl.tokens) :
    try_acquire rl t =
      (true, { rl with tokens := rl.tokens - 1,
                       total_requests := rl.total_requests + 1 }) := by
  simp only [try_acquire, refill_tokens_self rl t ht hmx]
  rw [if_pos h1]

/-- try_acquire with no elapsed time and less than one token: fail, state
unchanged. -/
theorem try_acquire_fail (rl : RateLimiter) (t : ℚ) (ht : rl.last_refill = t)
    (hmx : rl.tokens ≤ rl.max_tokens) (h1 : rl.tokens < 1) :
    try_acquire rl t = (false, rl) := by
  simp only [try_acquire, refill_tokens_self rl t ht hmx]
  rw [if_neg (not_le.mpr h1)]

/-- Draining k ≤ tokens requests at a fixed instant: all succeed. -/
theorem try_acquireN_drain : ∀ (k : ℕ) (rl : RateLimiter) (t : ℚ),
    rl.last_refill = t → rl.tokens ≤ rl.max_tokens → (k : ℚ) ≤ rl.tokens →
    try_acquireN rl t k =
      (List.replicate k true,
       { rl with tokens := rl.tokens - k,
                 total_requests := rl.total_requests + k })
  | 0, rl, t, _, _, _ => by
    cases rl; simp [try_acquireN]
  | k + 1, rl, t, ht, hmx, hk => by
    obtain ⟨rpm, bs, tk, mx, rr, lr, q, qm, t1, t2, t3⟩ := rl
    have ht' : lr = t := ht
    have hmx' : tk ≤ mx := hmx
    have hk' : ((k : ℕ) : ℚ) + 1 ≤ tk := by push_cast at hk; linarith
    have hk0 : (0 : ℚ) ≤ ((k : ℕ) : ℚ) := Nat.cast_nonneg k
    have h1 : (1 : ℚ) ≤ tk := by linarith
    have hstep := try_acquire_succ ⟨rpm, bs, tk, mx, rr, lr, q, qm, t1, t2, t3⟩
      t ht hmx h1
    have ih := try_acquireN_drain k
      ⟨rpm, bs, tk - 1, mx, rr, lr, q, qm, t1 + 1, t2, t3⟩ t ht'
      (by show tk - 1 ≤ mx; linarith)
      (by show ((k : ℕ) : ℚ) ≤ tk - 1; linarith)
    simp only [try_acquireN, hstep, List.replicate_succ]
    simp only at ih
    simp only [ih, Prod.mk.injEq, List.cons.injEq, RateLimiter.mk.injEq]
    simp only [true_and, and_true]
    constructor
    · push_cast
      ring
    · omega

/-- C4: from a freshly initialized limiter (full bucket), burst_size
try_acquire calls at the initial instant all succeed, the next one fails,
and after exactly 60/requests_per_minute further seconds exactly one more
succeeds — a second call at that same instant fails again. -/
theorem C4_token_bucket_semantics (rpm burst : ℕ) (t0 : ℚ)
    (h1 : 1 ≤ rpm) (h2 : 1 ≤ burst) :
    (try_acquireN (RateLimiter.init rpm burst t0) t0 burst).1 =
        List.replicate burst true ∧
    (try_acquire (try_acquireN (RateLimiter.init rpm burst t0) t0 burst).2
        t0).1 = false ∧
    (try_acquire
        (try_acquire (try_acquireN (RateLimiter.init rpm burst t0) t0 burst).2
          t0).2 (t0 + 60 / rpm)).1 = true ∧
    (try_acquire
        (try_acquire
          (try_acquire (try_acquireN (RateLimiter.init rpm burst t0) t0 burst).2
            t0).2 (t0 + 60 / rpm)).2 (t0 + 60 / rpm)).1 = false := by
  have hrpm : ((rpm : ℚ)) ≠ 0 := by
    simp only [ne_eq, Nat.cast_eq_zero]
    omega
  have hb1 : (1 : ℚ) ≤ (burst : ℚ) := by
    exact_mod_cast h2
  have hdrain : try_acquireN (RateLimiter.init rpm burst t0) t0 burst =
      (List.replicate burst true,
       ⟨rpm, burst, 0, (burst : ℚ), (rpm : ℚ) / 60, t0, [], 100, burst, 0, 0⟩) := by
    rw [try_acquireN_drain burst (RateLimiter.init rpm burst t0) t0 rfl
      (le_refl _) (le_refl _)]
    simp [RateLimiter.init, RateLimiter.mk.injEq]
  have hA : try_acquire
      (⟨rpm, burst, 0, (burst : ℚ), (rpm : ℚ) / 60, t0, [], 100, burst, 0, 0⟩ :
        RateLimiter) t0 =
      (false, ⟨rpm, burst, 0, (burst : ℚ), (rpm : ℚ) / 60, t0, [], 100, burst,
        0, 0⟩) := by
    apply try_acquire_fail
    · rfl
    · show (0 : ℚ) ≤ (burst : ℚ)
      linarith
    · show (0 : ℚ) < 1
      norm_num
  have hgain : (0 : ℚ) + (t0 + 60 / (rpm : ℚ) - t0) * ((rpm : ℚ) / 60) = 1 := by
    field_simp
    ring
  have hB : try_acquire
      (⟨rpm, burst, 0, (burst : ℚ), (rpm : ℚ) / 60, t0, [], 100, burst, 0, 0⟩ :
        RateLimiter) (t0 + 60 / rpm) =
      (true, ⟨rpm, burst, 0, (burst : ℚ), (rpm : ℚ) / 60, t0 + 60 / rpm, [],
        100, burst + 1, 0, 0⟩) := by
    simp only [try_acquire, refill_tokens, hgain, min_eq_right hb1,
      le_refl, if_pos]
    norm_num
  have hC : try_acquire
      (⟨rpm, burst, 0, (burst : ℚ), (rpm : ℚ) / 60, t0 + 60 / rpm, [], 100,
        burst + 1, 0, 0⟩ : RateLimiter) (t0 + 60 / rpm) =
      (false, ⟨rpm, burst, 0, (burst : ℚ), (rpm : ℚ) / 60, t0 + 60 / rpm, [],
        100, burst + 1, 0, 0⟩) := by
    apply try_acquire_fail
    · rfl
    · show (0 : ℚ) ≤ (burst : ℚ)
      linarith
    · show (0 : ℚ) < 1
      norm_num
  rw [hdrain]
  simp only [hA, hB, hC]
  exact ⟨trivial, trivial, trivial, trivial⟩

/-- C4 witness: the concrete configuration of the shared limiter
(claude_rate_limiter: 50 requests/minute, burst 10), started at time 0. -/
theorem C4_witness :
    ((1 : ℕ) ≤ 50 ∧ (1 : ℕ) ≤ 10) ∧
    ((try_acquireN (RateLimiter.init 50 10 0) 0 10).1 =
        List.replicate 10 true ∧
     (try_acquire (try_acquireN (RateLimiter.init 50 10 0) 0 10).2 0).1 =
        false ∧
     (try_acquire
        (try_acquire (try_acquireN (RateLimiter.init 50 10 0) 0 10).2 0).2
        (0 + 60 / 50)).1 = true ∧
     (try_acquire
        (try_acquire
          (try_acquire (try_acquireN (RateLimiter.init 50 10 0) 0 10).2 0).2
          (0 + 60 / 50)).2 (0 + 60 / 50)).1 = false) :=
  ⟨⟨by decide, by decide⟩, C4_token_bucket_semantics 50 10 0 (by decide) (by decide)⟩

/-- Dropping intermediate elements of a non-decreasing chain keeps it a
chain. -/
theorem chain_le_drop (a : ℚ) (xs ys : List ℚ)
    (h : List.Chain' (· ≤ ·) (a :: xs ++ ys)) :
    List.Chain' (· ≤ ·) (a :: ys) := by
  induction xs generalizing a with
  | nil => exact h
  | cons x xs ih =>
    have h1 : a ≤ x := (List.chain'_cons.mp h).1
    have h2 := ih x (List.chain'_cons.mp h).2
    cases ys with
    | nil => simp
    | cons y ys =>
      exact List.chain'_cons.mpr
        ⟨le_trans h1 (List.chain'_cons.mp h2).1, (List.chain'_cons.mp h2).2⟩

/-- Refilling at a time not before the stored timestamp preserves the token
invariant. -/
theorem refill_tokens_Inv (rl : RateLimiter) (now : ℚ) (hI : Inv rl)
    (hm : rl.last_refill ≤ now) : Inv (refill_tokens rl now) := by
  obtain ⟨h0, h1, h2, h3⟩ := hI
  have hadd : 0 ≤ (now - rl.last_refill) * rl.refill_rate :=
    mul_nonneg (by linarith) h3
  refine ⟨?_, ?_, ?_, ?_⟩
  · show 0 ≤ min rl.max_tokens (rl.tokens + (now - rl.last_refill) * rl.refill_rate)
    exact le_min (le_trans h0 h1) (by linarith)
  · show min rl.max_tokens (rl.tokens + (now - rl.last_refill) * rl.refill_rate) ≤
      rl.max_tokens
    exact min_le_left _ _
  · exact h2
  · exact h3

/-- Consuming one of at least one token preserves the token invariant. -/
theorem consume_Inv (rl : RateLimiter) (hI : Inv rl) (h1 : 1 ≤ rl.tokens) :
    Inv { rl with tokens := rl.tokens - 1,
                  total_requests := rl.total_requests + 1 } := by
  obtain ⟨h0, hmx, hb, hr⟩ := hI
  exact ⟨show (0 : ℚ) ≤ rl.tokens - 1 by linarith,
    show rl.tokens - 1 ≤ rl.max_tokens by linarith, hb, hr⟩

/-- The polling wait preserves the token invariant, never rewinds the
timestamp, and leaves the timestamp chained before the remaining clock
readings. -/
theorem acquire_loop_Inv : ∀ (sched : List (ℚ × ℚ)) (rl : RateLimiter)
    (st tmo : ℚ) (rest : List ℚ),
    Inv rl →
    List.Chain' (· ≤ ·) (rl.last_refill ::
      (sched.flatMap (fun p => [p.1, p.2]) ++ rest)) →
    Inv (acquire_loop rl st tmo sched).2 ∧
    rl.last_refill ≤ (acquire_loop rl st tmo sched).2.last_refill ∧
    List.Chain' (· ≤ ·)
      ((acquire_loop rl st tmo sched).2.last_refill :: rest)
  | [], rl, st, tmo, rest, hI, hc => ⟨hI, le_refl _, hc⟩
  | (tc, tr) :: sched, rl, st, tmo, rest, hI, hc => by
    have h1 : rl.last_refill ≤ tc := (List.chain'_cons.mp hc).1
    have hc2 := (List.chain'_cons.mp hc).2
    have h2 : tc ≤ tr := (List.chain'_cons.mp hc2).1
    have hc3 := (List.chain'_cons.mp hc2).2
    have h12 : rl.last_refill ≤ tr := le_trans h1 h2
    simp only [acquire_loop]
    by_cases hto : tmo ≤ tc - st
    · rw [if_pos hto]
      exact ⟨hI, le_refl _,
        chain_le_drop _ (tc :: tr :: sched.flatMap (fun p => [p.1, p.2])) rest hc⟩
    · rw [if_neg hto]
      have hI1 : Inv (refill_tokens rl tr) := refill_tokens_Inv rl tr hI h12
      by_cases htk : 1 ≤ (refill_tokens rl tr).tokens
      · rw [if_pos htk]
        refine ⟨consume_Inv _ hI1 htk, ?_, ?_⟩
        · show rl.last_refill ≤ tr
          exact h12
        · show List.Chain' (· ≤ ·) (tr :: rest)
          exact chain_le_drop tr (sched.flatMap (fun p => [p.1, p.2])) rest hc3
      · rw [if_neg htk]
        have hrec := acquire_loop_Inv sched (refill_tokens rl tr) st tmo rest
          hI1 hc3
        exact ⟨hrec.1, le_trans h12 hrec.2.1, hrec.2.2⟩

/-- Every operation preserves the token invariant, never rewinds the
timestamp, and leaves the timestamp chained before the remaining clock
readings. -/
theorem applyOp_Inv (op : RLOp) (rl : RateLimiter) (rest : List ℚ)
    (hI : Inv rl)
    (hc : List.Chain' (· ≤ ·) (rl.last_refill :: (opTimes op ++ rest))) :
    Inv (applyOp rl op) ∧ rl.last_refill ≤ (applyOp rl op).last_refill ∧
    List.Chain' (· ≤ ·) ((applyOp rl op).last_refill :: rest) := by
  cases op with
  | tryAcq now =>
    have h1 : rl.last_refill ≤ now := (List.chain'_cons.mp hc).1
    have hc2 := (List.chain'_cons.mp hc).2
    have hI1 := refill_tokens_Inv rl now hI h1
    simp only [applyOp, try_acquire]
    by_cases htk : 1 ≤ (refill_tokens rl now).tokens
    · rw [if_pos htk]
      exact ⟨consume_Inv _ hI1 htk, h1, hc2⟩
    · rw [if_neg htk]
      exact ⟨hI1, h1, hc2⟩
  | metrics now =>
    have h1 : rl.last_refill ≤ now := (List.chain'_cons.mp hc).1
    have hc2 := (List.chain'_cons.mp hc).2
    exact ⟨refill_tokens_Inv rl now hI h1, h1, hc2⟩
  | reset => exact ⟨hI, le_refl _, hc⟩
  | acq tmo now sched =>
    have h1 : rl.last_refill ≤ now := (List.chain'_cons.mp hc).1
    have hc2 := (List.chain'_cons.mp hc).2
    simp only [applyOp, acquire]
    by_cases hq : rl.queue_max_size ≤ rl.queue.length
    · rw [if_pos hq]
      exact ⟨hI, le_refl _,
        chain_le_drop _ (now :: sched.flatMap (fun p => [p.1, p.2])) rest hc⟩
    · rw [if_neg hq]
      have hI1 : Inv (refill_tokens rl now) := refill_tokens_Inv rl now hI h1
      by_cases htk : 1 ≤ (refill_tokens rl now).tokens
      · rw [if_pos htk]
        refine ⟨consume_Inv _ hI1 htk, h1, ?_⟩
        show List.Chain' (· ≤ ·) (now :: rest)
        exact chain_le_drop now (sched.flatMap (fun p => [p.1, p.2])) rest hc2
      · rw [if_neg htk]
        have hrec := acquire_loop_Inv sched
          { refill_tokens rl now with
            total_queued := (refill_tokens rl now).total_queued + 1 } now tmo
          rest hI1 hc2
        exact ⟨hrec.1, le_trans h1 hrec.2.1, hrec.2.2⟩

/-- Any operation sequence with non-decreasing clock readings preserves the
token invariant and never rewinds the timestamp. -/
theorem runOps_Inv : ∀ (ops : List RLOp) (rl : RateLimiter),
    Inv rl → List.Chain' (· ≤ ·) (rl.last_refill :: ops.flatMap opTimes) →
    Inv (runOps rl ops) ∧ rl.last_refill ≤ (runOps rl ops).last_refill
  | [], rl, hI, _ => ⟨hI, le_refl _⟩
  | op :: ops, rl, hI, hc => by
    have h := applyOp_Inv op rl (ops.flatMap opTimes) hI hc
    have h2 := runOps_Inv ops (applyOp rl op) h.1 h.2.2
    exact ⟨h2.1, le_trans h.2.1 h2.2⟩

/-- The polling wait never touches burst size, queue, queue bound or the
rejected counter. -/
theorem acquire_loop_static : ∀ (sched : List (ℚ × ℚ)) (rl : RateLimiter)
    (st tmo : ℚ),
    (acquire_loop rl st tmo sched).2.burst_size = rl.burst_size ∧
    (acquire_loop rl st tmo sched).2.queue = rl.queue ∧
    (acquire_loop rl st tmo sched).2.queue_max_size = rl.queue_max_size ∧
    (acquire_loop rl st tmo sched).2.total_rejected = rl.total_rejected
  | [], rl, st, tmo => ⟨rfl, rfl, rfl, rfl⟩
  | (tc, tr) :: sched, rl, st, tmo => by
    simp only [acquire_loop]
    by_cases hto : tmo ≤ tc - st
    · rw [if_pos hto]
      exact ⟨rfl, rfl, rfl, rfl⟩
    · rw [if_neg hto]
      by_cases htk : 1 ≤ (refill_tokens rl tr).tokens
      · rw [if_pos htk]
        exact ⟨rfl, rfl, rfl, rfl⟩
      · rw [if_neg htk]
        exact acquire_loop_static sched (refill_tokens rl tr) st tmo

/-- Every operation preserves the burst size. -/
theorem applyOp_burst (rl : RateLimiter) (op : RLOp) :
    (applyOp rl op).burst_size = rl.burst_size := by
  cases op with
  | tryAcq now =>
    simp only [applyOp, try_acquire]
    by_cases htk : 1 ≤ (refill_tokens rl now).tokens
    · rw [if_pos htk]
      rfl
    · rw [if_neg htk]
      rfl
  | metrics now => rfl
  | reset => rfl
  | acq tmo now sched =>
    simp only [applyOp, acquire]
    by_cases hq : rl.queue_max_size ≤ rl.queue.length
    · rw [if_pos hq]
    · rw [if_neg hq]
      by_cases htk : 1 ≤ (refill_tokens rl now).tokens
      · rw [if_pos htk]
        rfl
      · rw [if_neg htk]
        exact (acquire_loop_static sched _ now tmo).1

/-- The burst size survives any operation sequence. -/
theorem runOps_burst : ∀ (ops : List RLOp) (rl : RateLimiter),
    (runOps rl ops).burst_size = rl.burst_size
  | [], _rl => rfl
  | op :: ops, rl =>
    (runOps_burst ops (applyOp rl op)).trans (applyOp_burst rl op)

/-- C8: the refill never rewinds the last-refill timestamp when the clock
has not rewound; and along any monotone-clock sequence of try_acquire,
acquire, metrics and reset calls from a fresh limiter, the token count
stays within [0, burst_size] at every observation point. -/
theorem C8_token_invariant :
    (∀ (rl : RateLimiter) (now : ℚ), rl.last_refill ≤ now →
      rl.last_refill ≤ (refill_tokens rl now).last_refill) ∧
    (∀ (rpm burst : ℕ) (t0 : ℚ) (ops : List RLOp),
      List.Chain' (· ≤ ·) (t0 :: ops.flatMap opTimes) →
      0 ≤ (runOps (RateLimiter.init rpm burst t0) ops).tokens ∧
      (runOps (RateLimiter.init rpm burst t0) ops).tokens ≤
        ((runOps (RateLimiter.init rpm burst t0) ops).burst_size : ℚ) ∧
      (runOps (RateLimiter.init rpm burst t0) ops).burst_size = burst ∧
      t0 ≤ (runOps (RateLimiter.init rpm burst t0) ops).last_refill) := by
  constructor
  · intro rl now h
    exact h
  · intro rpm burst t0 ops hc
    have hI0 : Inv (RateLimiter.init rpm burst t0) :=
      ⟨Nat.cast_nonneg burst, le_refl _, rfl,
       div_nonneg (Nat.cast_nonneg rpm) (by norm_num)⟩
    have h := runOps_Inv ops (RateLimiter.init rpm burst t0) hI0 hc
    obtain ⟨⟨h0, h1, h2, _⟩, hlr⟩ := h
    exact ⟨h0, h2 ▸ h1, runOps_burst ops (RateLimiter.init rpm burst t0), hlr⟩

/-- C8 witness: a concrete monotone trace over the shared limiter's
configuration. -/
theorem C8_witness :
    (((RateLimiter.init 50 10 0).last_refill ≤ 5) ∧
      (RateLimiter.init 50 10 0).last_refill ≤
        (refill_tokens (RateLimiter.init 50 10 0) 5).last_refill) ∧
    (List.Chain' (· ≤ ·) ((0 : ℚ) :: sampleOps.flatMap opTimes) ∧
      (0 ≤ (runOps (RateLimiter.init 50 10 0) sampleOps).tokens ∧
       (runOps (RateLimiter.init 50 10 0) sampleOps).tokens ≤
         ((runOps (RateLimiter.init 50 10 0) sampleOps).burst_size : ℚ) ∧
       (runOps (RateLimiter.init 50 10 0) sampleOps).burst_size = 10 ∧
       (0 : ℚ) ≤ (runOps (RateLimiter.init 50 10 0) sampleOps).last_refill)) :=
  ⟨⟨by decide, C8_token_invariant.1 (RateLimiter.init 50 10 0) 5 (by decide)⟩,
   ⟨by norm_num [sampleOps, opTimes, List.chain'_cons],
    C8_token_invariant.2 50 10 0 sampleOps
      (by norm_num [sampleOps, opTimes, List.chain'_cons])⟩⟩

/-- Every operation keeps the queue empty, the queue bound positive and the
rejected counter zero. -/
theorem applyOp_queue (rl : RateLimiter) (op : RLOp)
    (hq : rl.queue = []) (hqm : 0 < rl.queue_max_size)
    (hr : rl.total_rejected = 0) :
    (applyOp rl op).queue = [] ∧ 0 < (applyOp rl op).queue_max_size ∧
    (applyOp rl op).total_rejected = 0 := by
  cases op with
  | tryAcq now =>
    simp only [applyOp, try_acquire]
    by_cases htk : 1 ≤ (refill_tokens rl now).tokens
    · rw [if_pos htk]
      exact ⟨hq, hqm, hr⟩
    · rw [if_neg htk]
      exact ⟨hq, hqm, hr⟩
  | metrics now => exact ⟨hq, hqm, hr⟩
  | reset => exact ⟨hq, hqm, rfl⟩
  | acq tmo now sched =>
    simp only [applyOp, acquire]
    have hq' : ¬ (rl.queue_max_size ≤ rl.queue.length) := by
      rw [hq]
      simp only [List.length_nil, Nat.le_zero]
      omega
    rw [if_neg hq']
    by_cases htk : 1 ≤ (refill_tokens rl now).tokens
    · rw [if_pos htk]
      exact ⟨hq, hqm, hr⟩
    · rw [if_neg htk]
      have hs := acquire_loop_static sched
        { refill_tokens rl now with
          total_queued := (refill_tokens rl now).total_queued + 1 } now tmo
      refine ⟨?_, ?_, ?_⟩
      · rw [hs.2.1]
        exact hq
      · rw [hs.2.2.1]
        exact hqm
      · rw [hs.2.2.2]
        exact hr

/-- Queue emptiness, a positive queue bound and a zero rejected counter
survive any operation sequence. -/
theorem runOps_queue : ∀ (ops : List RLOp) (rl : RateLimiter),
    rl.queue = [] → 0 < rl.queue_max_size → rl.total_rejected = 0 →
    (runOps rl ops).queue = [] ∧ 0 < (runOps rl ops).queue_max_size ∧
    (runOps rl ops).total_rejected = 0
  | [], rl, hq, hqm, hr => ⟨hq, hqm, hr⟩
  | op :: ops, rl, hq, hqm, hr => by
    have h := applyOp_queue rl op hq hqm hr
    exact runOps_queue ops (applyOp rl op) h.1 h.2.1 h.2.2

/-- C10: no operation ever appends to the admission queue — it stays empty
in every reachable state, the queue-full rejection branch of acquire is
never taken, the rejected counter stays zero and metrics always reports a
zero queue size. -/
theorem C10_queue_always_empty (rpm burst : ℕ) (t0 : ℚ) (ops : List RLOp)
    (now : ℚ) :
    (runOps (RateLimiter.init rpm burst t0) ops).queue = [] ∧
    (runOps (RateLimiter.init rpm burst t0) ops).total_rejected = 0 ∧
    (get_metrics (runOps (RateLimiter.init rpm burst t0) ops) now).1.queue_size
      = 0 := by
  have h := runOps_queue ops (RateLimiter.init rpm burst t0) rfl
    (by norm_num [RateLimiter.init]) rfl
  refine ⟨h.1, h.2.2, ?_⟩
  show (refill_tokens (runOps (RateLimiter.init rpm burst t0) ops) now).queue.length = 0
  simp only [refill_tokens]
  rw [h.1]
  rfl

end Ritsuko
